import Mathlib

/-!
Shallow embedding of the Chain Sentinel threat-detection pipeline
(`src/services/blockchain.ts` — `HiveIntelligenceService`,
`src/unnamed/part_001` — `LocalThreatDetector`,
`src/detectors/threat-processor.ts` — `ThreatProcessor`)
together with proofs checking the natural-language specification
against the code.

Modelling conventions:
* JavaScript numbers that the code obtains via `parseInt(_, 16)` and then
  compares/multiplies/divides (values, gas prices, thresholds, risk and
  confidence scores) are modelled as rationals `ℚ`; the claims only involve
  exact decimal constants, so no floating-point rounding is relevant.
* `Date.now()` timestamps are modelled as integers `ℤ` (milliseconds).
* Nullable fields (`tx.to`, `searchData.response`) become `Option`;
  the JS falsiness test `!tx.to` is modelled as `Option.isNone`
  (addresses and response texts are non-empty strings in this API).
* Mutable instance state (`requestTimestamps`, `recentTransactions`,
  `contractInteractions`) is passed explicitly; methods become functions
  from state to state.
* Alert fields that carry no control flow for the verified claims
  (the `id` string built with `Date.now()`, the free-form `details`
  payload, `blockNumber`) are elided from the `ThreatAlert` record.
-/

namespace ChainSentinel

/-- Severity enumeration of `ThreatAlert.severity` in `types/index.ts`. -/
inductive Severity where
  | low | medium | high | critical
deriving DecidableEq, Repr

/-- Threat-type enumeration of `ThreatAlert.type` in `types/index.ts`. -/
inductive ThreatType where
  | rug_pull | exploit | suspicious_pattern | flash_loan_attack
  | liquidity_drain | mev_attack | sandwich_attack
deriving DecidableEq, Repr

/-- Record `RealTransaction` from `types/index.ts`, with the numeric fields already
hex-decoded (the code decodes them with `parseInt(_, 16)` before every use
relevant to the claims). -/
structure RealTransaction where
  hash : String
  sender : String          -- `from` (a Lean keyword)
  toAddr : Option String   -- `to` (a reserved token in this Lean setup)
  value : ℚ
  gasPrice : ℚ
  input : String
  timestamp : ℤ
deriving DecidableEq, Repr

/-- The `threatThresholds` sub-record of `DetectorConfig`. -/
structure ThreatThresholds where
  gasAnomalyThreshold : ℚ
  flashLoanMinValue : ℚ
deriving DecidableEq, Repr

/-- The `mitigation` sub-record of `DetectorConfig`. -/
structure MitigationConfig where
  enabled : Bool
  autoFreeze : Bool
  emergencyPause : Bool
deriving DecidableEq, Repr

/-- The `hiveIntelligence` sub-record of `DetectorConfig`; `apiKey` is
optional, and the code guards on its JS truthiness. -/
structure HiveConfig where
  apiKey : Option String
  enabled : Bool
deriving DecidableEq, Repr

/-- The parts of `DetectorConfig` the verified code paths read. -/
structure DetectorConfig where
  threatThresholds : ThreatThresholds
  hiveIntelligence : HiveConfig
  mitigation : MitigationConfig
deriving DecidableEq, Repr

/-- Record `ThreatAlert` from `types/index.ts` (identifier, `details` payload and
block number elided; see the module docstring). -/
structure ThreatAlert where
  ttype : ThreatType
  severity : Severity
  contractAddress : String
  transactionHash : String
  timestamp : ℤ
  confidence : ℚ
  mitigated : Bool
deriving DecidableEq, Repr

/-! ### Rate limiter (`HiveIntelligenceService.canMakeRequest` / `recordRequest`)

`canMakeRequest` filters `requestTimestamps`, keeping only entries strictly
newer than `now - 60000`, and admits iff fewer than 18 remain.
`recordRequest` pushes the current time — but `analyzeTransaction` calls it
only *inside the `try`, after `axios.post` returns successfully*: an
admitted request whose HTTP attempts all fail records nothing and consumes
no budget.  The admission check happens at instant `c` and the recording
(when the attempt loop succeeds) at a later instant `r ≥ c`; processing is
sequential, so the next check comes at or after `r`.  `rlProcess` runs that
protocol over an arbitrary arrival sequence of
`(checkTime, recordTime, attemptsSucceeded)` triples. -/

/-- The purge inside `canMakeRequest`:
`this.requestTimestamps.filter(timestamp => timestamp > oneMinuteAgo)`
with `oneMinuteAgo = now - 60000`. -/
def purgeOld (now : ℤ) (ts : List ℤ) : List ℤ :=
  ts.filter (fun t => decide (now - 60000 < t))

/-- The `maxRequestsPerMinute` field of `HiveIntelligenceService`. -/
def maxRequestsPerMinute : ℕ := 18

/-- One admission round: `canMakeRequest()` evaluated at instant `c`; when
it admits, the HTTP attempt loop runs, and only if that loop succeeds
(`ok = true`) does `recordRequest()` push the record instant `r` — an
admitted request whose attempts all fail leaves only the purge behind.
Returns the admission decision and the new `requestTimestamps`. -/
def rlStep (c r : ℤ) (ok : Bool) (ts : List ℤ) : Bool × List ℤ :=
  let purged := purgeOld c ts
  if purged.length < maxRequestsPerMinute then
    (true, if ok then purged ++ [r] else purged)
  else (false, purged)

/-- Run the rate limiter over a list of
`(checkTime, recordTime, attemptsSucceeded)` arrivals, returning the
admitted arrivals (a timestamp was recorded only for the successful
ones). -/
def rlProcess (ts : List ℤ) : List (ℤ × ℤ × Bool) → List (ℤ × ℤ × Bool)
  | [] => []
  | (c, r, ok) :: rest =>
    let s := rlStep c r ok ts
    if s.1 then (c, r, ok) :: rlProcess s.2 rest else rlProcess s.2 rest

/-- Record times of the successful requests among a list of arrivals:
exactly the timestamps `recordRequest()` pushed. -/
def recordedTimes (l : List (ℤ × ℤ × Bool)) : List ℤ :=
  (l.filter (fun a => a.2.2)).map (fun a => a.2.1)

/-- Chronological arrival sequence starting no earlier than `u`: each check
precedes its record, and each record precedes the next check (sequential
processing). -/
def chronoFrom (u : ℤ) : List (ℤ × ℤ × Bool) → Bool
  | [] => true
  | (c, r, _) :: rest => decide (u ≤ c) && decide (c ≤ r) && chronoFrom r rest

/-- Membership of an instant in the trailing 60-second window ending at `T`. -/
def inWindow (T t : ℤ) : Bool :=
  decide (T - 60000 < t) && decide (t ≤ T)

/-! ### `LocalThreatDetector` (`src/unnamed/part_001`) -/

/-- The two mutable maps of `LocalThreatDetector`, modelled as total
functions with the maps' default values (`[]`, `0`) for absent keys. -/
structure LocalDetectorState where
  recentTransactions : String → List RealTransaction
  contractInteractions : String → ℕ

/-- Fresh detector state: both maps empty. -/
def initialDetectorState : LocalDetectorState :=
  ⟨fun _ => [], fun _ => 0⟩

/-- The window key `tx.from + '-' + tx.to`; when `tx.to` is `undefined`,
JavaScript string concatenation stringifies it to `"undefined"`. -/
def pairKey (tx : RealTransaction) : String :=
  tx.sender ++ "-" ++ (match tx.toAddr with | some a => a | none => "undefined")

/-- Method `LocalThreatDetector.trackTransaction`: push the transaction onto its
pair's window, `shift()` the oldest entry when the window exceeds 10, and
bump the recipient's interaction counter when the input is non-trivial. -/
def trackTransaction (st : LocalDetectorState) (tx : RealTransaction) :
    LocalDetectorState :=
  let key := pairKey tx
  let txList := st.recentTransactions key ++ [tx]
  let txList := if 10 < txList.length then txList.tail else txList
  let interactions : String → ℕ :=
    match tx.toAddr with
    | some a =>
        if tx.input ≠ "0x" then
          fun k => if k = a then st.contractInteractions k + 1
                   else st.contractInteractions k
        else st.contractInteractions
    | none => st.contractInteractions
  ⟨fun k => if k = key then txList else st.recentTransactions k, interactions⟩

/-- Method `LocalThreatDetector.detectGasAnomalies`. -/
def detectGasAnomalies (cfg : DetectorConfig) (tx : RealTransaction) :
    List ThreatAlert :=
  let gasPrice := tx.gasPrice
  let threshold := cfg.threatThresholds.gasAnomalyThreshold
  if threshold < gasPrice then
    [{ ttype := .suspicious_pattern,
       severity := if threshold * 2 < gasPrice then .high else .medium,
       contractAddress := tx.toAddr.getD "",
       transactionHash := tx.hash,
       timestamp := tx.timestamp,
       confidence := min (9/10) (gasPrice / threshold * (3/10)),
       mitigated := false }]
  else []

/-- Method `LocalThreatDetector.detectLargeValueTransfers`. -/
def detectLargeValueTransfers (cfg : DetectorConfig) (tx : RealTransaction) :
    List ThreatAlert :=
  if cfg.threatThresholds.flashLoanMinValue < tx.value then
    [{ ttype := .suspicious_pattern,
       severity := if cfg.threatThresholds.flashLoanMinValue * 10 < tx.value
                   then .high else .medium,
       contractAddress := tx.toAddr.getD "",
       transactionHash := tx.hash,
       timestamp := tx.timestamp,
       confidence := 3/5,
       mitigated := false }]
  else []

/-- Method `LocalThreatDetector.detectMEVActivity`; `st` is the state *after*
`trackTransaction` ran for the current transaction, as in `detectThreats`,
so the window read here already contains the current transaction. -/
def detectMEVActivity (cfg : DetectorConfig) (st : LocalDetectorState)
    (tx : RealTransaction) : List ThreatAlert :=
  let gasPrice := tx.gasPrice
  if cfg.threatThresholds.gasAnomalyThreshold * (1/2) < gasPrice ∧
      10 < tx.input.length then
    let recentTxs := st.recentTransactions (pairKey tx)
    if 2 < recentTxs.length then
      let avgGasPrice :=
        (recentTxs.map (fun rtx => rtx.gasPrice)).sum / (recentTxs.length : ℚ)
      if avgGasPrice * 3 < gasPrice then
        [{ ttype := .mev_attack,
           severity := .medium,
           contractAddress := tx.toAddr.getD "",
           transactionHash := tx.hash,
           timestamp := tx.timestamp,
           confidence := 7/10,
           mitigated := false }]
      else []
    else []
  else []

/-- Method `LocalThreatDetector.detectSuspiciousPatterns`: large contract creation. -/
def detectSuspiciousPatterns (tx : RealTransaction) : List ThreatAlert :=
  if tx.toAddr.isNone ∧ 1000 < tx.input.length then
    [{ ttype := .suspicious_pattern,
       severity := .low,
       contractAddress := "",
       transactionHash := tx.hash,
       timestamp := tx.timestamp,
       confidence := 2/5,
       mitigated := false }]
  else []

/-- Method `LocalThreatDetector.detectContractBehavior`: high-frequency contract
interaction; reads the counter updated by `trackTransaction`. -/
def detectContractBehavior (st : LocalDetectorState) (tx : RealTransaction) :
    List ThreatAlert :=
  match tx.toAddr with
  | some a =>
      if 100 < st.contractInteractions a then
        [{ ttype := .suspicious_pattern,
           severity := .low,
           contractAddress := a,
           transactionHash := tx.hash,
           timestamp := tx.timestamp,
           confidence := 1/2,
           mitigated := false }]
      else []
  | none => []

/-- Method `LocalThreatDetector.detectThreats`: track first, then run the five
detectors in the code's order and concatenate their alerts. -/
def detectThreats (cfg : DetectorConfig) (st : LocalDetectorState)
    (tx : RealTransaction) : LocalDetectorState × List ThreatAlert :=
  let st1 := trackTransaction st tx
  (st1,
    detectGasAnomalies cfg tx ++ detectLargeValueTransfers cfg tx ++
    detectMEVActivity cfg st1 tx ++ detectSuspiciousPatterns tx ++
    detectContractBehavior st1 tx)

/-- Run `detectThreats` over a whole transaction sequence, returning the
final detector state. -/
def processAll (cfg : DetectorConfig) (st : LocalDetectorState) :
    List RealTransaction → LocalDetectorState
  | [] => st
  | tx :: rest => processAll cfg (detectThreats cfg st tx).1 rest

/-! ### `HiveIntelligenceService.analyzeTransaction` — pre-enrichment stages -/

/-- How a call to `analyzeTransaction` can resolve before reaching the HTTP
attempt loop. -/
inductive PreOutcome where
  | disabled      -- integration off or API key missing
  | rateLimited   -- `canMakeRequest()` returned `false`
  | ineligible    -- the local eligibility gate skipped the transaction
  | proceed       -- the request goes on to the attempt loop
deriving DecidableEq, Repr

/-- Result of the pre-enrichment stages: the outcome, the value of
`requestTimestamps` after the call, and whether `canMakeRequest()` was
invoked (observable through the purge it applies to `requestTimestamps`). -/
structure PreResult where
  outcome : PreOutcome
  timestamps : List ℤ
  consultedRateLimiter : Bool
deriving DecidableEq, Repr

/-- The eligibility gate of `analyzeTransaction` (lines 133-142):
high value, high gas, or complex input. -/
def eligibleForEnrichment (cfg : DetectorConfig) (tx : RealTransaction) : Bool :=
  let isHighValue := decide (cfg.threatThresholds.flashLoanMinValue < tx.value)
  let isHighGas := decide (cfg.threatThresholds.gasAnomalyThreshold < tx.gasPrice)
  let hasComplexInput := decide (100 < tx.input.length)
  isHighValue || isHighGas || hasComplexInput

/-- The stages of `analyzeTransaction` before the HTTP attempt loop, in the
code's order: (1) the `enabled` / `apiKey` guard; (2) `canMakeRequest()`,
which purges `requestTimestamps` and compares the remaining window against
the 18-per-minute ceiling; (3) the local eligibility gate
(`!isHighValue && !isHighGas && !hasComplexInput` skips). -/
def analyzePre (cfg : DetectorConfig) (ts : List ℤ) (now : ℤ)
    (tx : RealTransaction) : PreResult :=
  if ¬cfg.hiveIntelligence.enabled ∨ cfg.hiveIntelligence.apiKey.isNone then
    ⟨.disabled, ts, false⟩
  else
    let purged := purgeOld now ts
    if ¬(purged.length < maxRequestsPerMinute) then ⟨.rateLimited, purged, true⟩
    else if ¬(eligibleForEnrichment cfg tx) then ⟨.ineligible, purged, true⟩
    else ⟨.proceed, purged, true⟩

/-! ### Response parsing (`parseSearchResponse` and the keyword extractors) -/

/-- JavaScript `text.toLowerCase()`, embedded as a character-wise map over
the string's characters. -/
def toLowerStr (s : String) : String := ⟨s.data.map Char.toLower⟩

/-- Whether `pat` occurs as a contiguous run inside `l`. -/
def charsInfix (pat : List Char) : List Char → Bool
  | [] => pat.isEmpty
  | c :: rest => pat.isPrefixOf (c :: rest) || charsInfix pat rest

/-- JavaScript `text.includes(pattern)`. -/
def includes (text pat : String) : Bool :=
  charsInfix pat.toList text.toList

/-- The `/v1/search` response body: `response` free text plus data sources;
`response` is `Option` because the falsiness guard `!searchData.response`
also rejects an absent field. -/
structure SearchData where
  response : Option String
  data_sources : List String
deriving DecidableEq, Repr

/-- One per-category risk entry of `HiveAnalysis` (`rugPull`/`flashLoan`/`mev`). -/
structure RiskFactor where
  risk : ℚ
  indicators : List String
deriving DecidableEq, Repr

/-- Record `HiveAnalysis` from `types/index.ts` (the always-empty `threats` array is
elided; it carries no information). -/
structure HiveAnalysis where
  dataSources : List String
  rawResponse : String
  overallRisk : ℚ
  confidence : ℚ
  rugPull : Option RiskFactor
  flashLoan : Option RiskFactor
  mev : Option RiskFactor
deriving DecidableEq, Repr

/-- Method `HiveIntelligenceService.extractRiskScore`. -/
def extractRiskScore (text threatType : String) : ℚ :=
  if includes text "high risk" || includes text "critical" then 9/10
  else if includes text "medium risk" || includes text "moderate" then 3/5
  else if includes text "low risk" || includes text "minimal" then 3/10
  else if includes text "suspicious" || includes text "concerning" then 7/10
  else if includes text "no risk" || includes text "safe" then 1/10
  else if includes text threatType then 1/2
  else 0

/-- Method `HiveIntelligenceService.extractIndicators`. -/
def extractIndicators (text : String) (keywords : List String) : List String :=
  keywords.filter (fun k => includes text k)

/-- Method `HiveIntelligenceService.extractOverallRisk`. -/
def extractOverallRisk (text : String) : ℚ :=
  if includes text "high risk" || includes text "dangerous" then 4/5
  else if includes text "medium risk" || includes text "moderate risk" then 1/2
  else if includes text "low risk" || includes text "minimal risk" then 1/5
  else 3/10

/-- Method `HiveIntelligenceService.extractConfidence`. -/
def extractConfidence (text : String) : ℚ :=
  if includes text "confident" || includes text "certain" then 9/10
  else if includes text "likely" || includes text "probable" then 7/10
  else if includes text "possible" || includes text "might" then 1/2
  else if includes text "uncertain" || includes text "unclear" then 3/10
  else 3/5

/-- Method `HiveIntelligenceService.parseSearchResponse`: `none` when the body or
its `response` text is falsy (absent or empty); otherwise lower-case the
text and extract the structured analysis by keyword matching. -/
def parseSearchResponse (searchData : Option SearchData) : Option HiveAnalysis :=
  match searchData with
  | none => none
  | some d =>
    match d.response with
    | none => none
    | some raw =>
      if raw = "" then none
      else
        let response := toLowerStr raw
        some
          { dataSources := d.data_sources
            rawResponse := raw
            overallRisk := extractOverallRisk response
            confidence := extractConfidence response
            rugPull :=
              if includes response "rug pull" || includes response "exit scam" then
                some ⟨extractRiskScore response "rug pull",
                      extractIndicators response ["rug pull", "exit scam", "liquidity"]⟩
              else none
            flashLoan :=
              if includes response "flash loan" || includes response "arbitrage" then
                some ⟨extractRiskScore response "flash loan",
                      extractIndicators response ["flash loan", "arbitrage", "exploit"]⟩
              else none
            mev :=
              if includes response "mev" || includes response "front-running" ||
                  includes response "sandwich" then
                some ⟨extractRiskScore response "mev",
                      extractIndicators response ["mev", "front-running", "sandwich"]⟩
              else none }

/-! ### The retry loop of `analyzeTransaction` (lines 144-188) -/

/-- What one HTTP attempt does, as seen by the loop: the transport either
fails (with an optional HTTP status used only for log classification) or
delivers a response body. -/
inductive TransportOutcome where
  | failure (status : Option ℕ)
  | success (data : Option SearchData)

/-- The `retryCount` field of `HiveIntelligenceService`: 2 attempts total. -/
def retryCount : ℕ := 2

/-- The `retryDelay` field of `HiveIntelligenceService`: base delay 1000 ms. -/
def retryDelay : ℕ := 1000

/-- Trace of the attempt loop: the value returned to the caller, how many
attempts ran, and the waits (ms) inserted between consecutive attempts. -/
structure AttemptTrace where
  result : Option HiveAnalysis
  attemptsMade : ℕ
  waits : List ℕ
deriving DecidableEq, Repr

/-- The body of `for (attempt = 1; attempt <= retryCount; attempt++)`:
`fuel = retryCount - attempt + 1` counts the remaining iterations.  A
successful call parses the body immediately (no retry on a malformed body);
a failure on the final attempt returns `null` after log classification;
an earlier failure waits `retryDelay * attempt` and retries. -/
def attemptLoop (oracle : ℕ → TransportOutcome) : ℕ → ℕ → AttemptTrace
  | 0, _ => ⟨none, 0, []⟩
  | fuel + 1, attempt =>
    match oracle attempt with
    | .success d => ⟨parseSearchResponse d, 1, []⟩
    | .failure _ =>
      if fuel = 0 then ⟨none, 1, []⟩
      else
        let t := attemptLoop oracle fuel (attempt + 1)
        ⟨t.result, t.attemptsMade + 1, retryDelay * attempt :: t.waits⟩

/-- The whole attempt loop of `analyzeTransaction`, starting at attempt 1
with `retryCount` iterations available. -/
def analyzeAttempts (oracle : ℕ → TransportOutcome) : AttemptTrace :=
  attemptLoop oracle retryCount 1

/-! ### `ThreatProcessor` (`src/detectors/threat-processor.ts`) -/

/-- The first stage of `ThreatProcessor.processHiveThreats`: the category
alerts (rug pull, flash loan, MEV) pushed onto `threats`, in the code's
order. -/
def processHiveCategoryThreats (tx : RealTransaction) (h : HiveAnalysis) :
    List ThreatAlert :=
    (match h.rugPull with
     | some rp =>
       if 1/2 < rp.risk then
         [{ ttype := .rug_pull,
            severity := if 4/5 < rp.risk then .critical else .high,
            contractAddress := tx.toAddr.getD "",
            transactionHash := tx.hash,
            timestamp := tx.timestamp,
            confidence := rp.risk,
            mitigated := false }]
       else []
     | none => []) ++
    (match h.flashLoan with
     | some fl =>
       if 3/5 < fl.risk then
         [{ ttype := .flash_loan_attack,
            severity := if 4/5 < fl.risk then .critical else .high,
            contractAddress := tx.toAddr.getD "",
            transactionHash := tx.hash,
            timestamp := tx.timestamp,
            confidence := fl.risk,
            mitigated := false }]
       else []
     | none => []) ++
    (match h.mev with
     | some m =>
       if 3/5 < m.risk then
         [{ ttype := .mev_attack,
            severity := if 4/5 < m.risk then .high else .medium,
            contractAddress := tx.toAddr.getD "",
            transactionHash := tx.hash,
            timestamp := tx.timestamp,
            confidence := m.risk,
            mitigated := false }]
       else []
     | none => [])

/-- Method `ThreatProcessor.processHiveThreats`: the category alerts, plus the
generic fallback, which fires only when no category alert did and the
overall risk exceeds 0.7.  The fallback confidence is
`hiveAnalysis.confidence || 0.6` (the JS `||` replaces a zero score
by 0.6). -/
def processHiveThreats (tx : RealTransaction) (h : HiveAnalysis) :
    List ThreatAlert :=
  let threats := processHiveCategoryThreats tx h
  if 7/10 < h.overallRisk ∧ threats.length = 0 then
    threats ++
      [{ ttype := .suspicious_pattern,
         severity := if 4/5 < h.overallRisk then .high else .medium,
         contractAddress := tx.toAddr.getD "",
         transactionHash := tx.hash,
         timestamp := tx.timestamp,
         confidence := if h.confidence = 0 then 3/5 else h.confidence,
         mitigated := false }]
  else threats

/-- Method `ThreatProcessor.executeMitigation`: the simulated mitigation actions
always succeed, so the alert's `mitigated` flag is set. -/
def executeMitigation (threat : ThreatAlert) : ThreatAlert :=
  { threat with mitigated := true }

/-- Result of `ThreatProcessor.handleThreat`: the alerts passed to
`socialAlerts.sendAlert` in order, whether `executeMitigation` was invoked,
and the alert object as it stands afterwards. -/
structure HandleResult where
  dispatched : List ThreatAlert
  mitigationInvoked : Bool
  finalAlert : ThreatAlert
deriving DecidableEq, Repr

/-- Method `ThreatProcessor.handleThreat`: dispatch medium+ severities, then run
auto-mitigation for enabled × critical × confidence > 0.8, which re-sends
the now-mitigated alert. -/
def handleThreat (cfg : DetectorConfig) (threat : ThreatAlert) : HandleResult :=
  let sent : List ThreatAlert :=
    if threat.severity = .medium ∨ threat.severity = .high ∨
        threat.severity = .critical then [threat] else []
  if cfg.mitigation.enabled ∧ threat.severity = .critical ∧
      4/5 < threat.confidence then
    let m := executeMitigation threat
    ⟨sent ++ [m], true, m⟩
  else ⟨sent, false, threat⟩

/-! ## Helper lemmas -/

/-- Filtering with a pointwise-weaker predicate keeps at least as many
elements. -/
lemma length_filter_mono {l : List ℤ} {p q : ℤ → Bool}
    (h : ∀ a ∈ l, p a = true → q a = true) :
    (l.filter p).length ≤ (l.filter q).length := by
  induction l with
  | nil => simp
  | cons x xs ih =>
    have ih' := ih (fun a ha => h a (List.mem_cons_of_mem _ ha))
    have hx := h x (List.mem_cons_self _ _)
    cases hpx : p x with
    | false =>
      cases hqx : q x with
      | false => simpa [List.filter_cons, hpx, hqx] using ih'
      | true =>
        simp only [List.filter_cons, hpx, hqx, cond_false, cond_true,
          List.length_cons]
        exact Nat.le_succ_of_le ih'
    | true =>
      simp only [List.filter_cons, hpx, hx hpx, cond_true, List.length_cons]
      exact Nat.succ_le_succ ih'

/-- Purging at a later instant subsumes an earlier purge. -/
lemma purgeOld_filter (v c : ℤ) (hvc : v ≤ c) (l : List ℤ) :
    purgeOld c (l.filter (fun t => decide (v - 60000 < t))) =
      l.filter (fun t => decide (c - 60000 < t)) := by
  unfold purgeOld
  rw [List.filter_filter]
  apply List.filter_congr
  intro a _
  by_cases hc : c - 60000 < a
  · have hv : v - 60000 < a := lt_of_le_of_lt (by omega) hc
    simp [hc, hv]
  · simp [hc]

/-- Recorded times of a successful arrival at the head. -/
lemma recordedTimes_cons_true (c r : ℤ) (l : List (ℤ × ℤ × Bool)) :
    recordedTimes ((c, r, true) :: l) = r :: recordedTimes l := by
  simp [recordedTimes]

/-- Recorded times of a failed arrival at the head. -/
lemma recordedTimes_cons_false (c r : ℤ) (l : List (ℤ × ℤ × Bool)) :
    recordedTimes ((c, r, false) :: l) = recordedTimes l := by
  simp [recordedTimes]

/-- Core induction for the rate-limit budget: starting from a state that is
exactly the `v`-purged view of the already-recorded times, a chronological
arrival sequence never brings any trailing 60-second window above 18
*recorded* (successful) requests. -/
lemma rlProcess_bound :
    ∀ (arrivals : List (ℤ × ℤ × Bool)) (recorded : List ℤ) (v u : ℤ),
      chronoFrom u arrivals = true → v ≤ u →
      (∀ t ∈ recorded, t ≤ u) →
      (∀ T : ℤ, ((recorded.filter (inWindow T)).length ≤ 18)) →
      ∀ T : ℤ,
        (((recorded ++
            recordedTimes (rlProcess
              (recorded.filter (fun t => decide (v - 60000 < t)))
              arrivals)).filter (inWindow T)).length ≤ 18) := by
  intro arrivals
  induction arrivals with
  | nil =>
    intro recorded v u _ _ _ hbound T
    simpa [rlProcess, recordedTimes] using hbound T
  | cons a rest ih =>
    obtain ⟨c, r, ok⟩ := a
    intro recorded v u hch hvu hadm hbound T
    simp only [chronoFrom, Bool.and_eq_true, decide_eq_true_eq] at hch
    obtain ⟨⟨huc, hcr⟩, hch'⟩ := hch
    have hvc : v ≤ c := le_trans hvu huc
    have hpurge := purgeOld_filter v c hvc recorded
    by_cases hlt :
        (recorded.filter (fun t => decide (c - 60000 < t))).length <
          maxRequestsPerMinute
    · -- admitted: the attempt loop's outcome decides whether `r` is pushed
      cases ok with
      | true =>
        have hr : decide (c - 60000 < r) = true := by
          simp only [decide_eq_true_eq]; omega
        have hstep :
            rlProcess (recorded.filter (fun t => decide (v - 60000 < t)))
                ((c, r, true) :: rest) =
              (c, r, true) :: rlProcess
                  ((recorded ++ [r]).filter
                    (fun t => decide (c - 60000 < t)))
                  rest := by
          simp only [rlProcess, rlStep, hpurge, hlt, if_true]
          simp [List.filter_append, hr]
        rw [hstep, recordedTimes_cons_true]
        have hgoal :
            recorded ++ r :: recordedTimes (rlProcess
                ((recorded ++ [r]).filter (fun t => decide (c - 60000 < t)))
                rest) =
              (recorded ++ [r]) ++ recordedTimes (rlProcess
                ((recorded ++ [r]).filter (fun t => decide (c - 60000 < t)))
                rest) := by
          simp
        rw [hgoal]
        apply ih (recorded ++ [r]) c r hch' hcr
        · intro t ht
          rcases List.mem_append.mp ht with ht' | ht'
          · exact le_trans (hadm t ht') (le_trans huc hcr)
          · simp only [List.mem_singleton] at ht'
            omega
        · intro T'
          rw [List.filter_append]
          cases hin : inWindow T' r with
          | false => simpa [hin] using hbound T'
          | true =>
            simp only [inWindow, Bool.and_eq_true, decide_eq_true_eq] at hin
            have hsub :
                (recorded.filter (inWindow T')).length ≤
                  (recorded.filter
                    (fun t => decide (c - 60000 < t))).length := by
              apply length_filter_mono
              intro t _ htw
              simp only [inWindow, Bool.and_eq_true, decide_eq_true_eq] at htw
              simp only [decide_eq_true_eq]
              omega
            have h17 : (recorded.filter (inWindow T')).length ≤ 17 := by
              have h18 := lt_of_le_of_lt hsub hlt
              simp only [maxRequestsPerMinute] at h18
              omega
            simp only [List.length_append]
            have : ([r].filter (inWindow T')).length ≤ 1 := by
              simpa using List.length_filter_le _ _
            omega
      | false =>
        -- admitted but every attempt failed: nothing recorded
        have hstep :
            rlProcess (recorded.filter (fun t => decide (v - 60000 < t)))
                ((c, r, false) :: rest) =
              (c, r, false) :: rlProcess
                  (recorded.filter (fun t => decide (c - 60000 < t)))
                  rest := by
          simp only [rlProcess, rlStep, hpurge, hlt, if_true]
          simp
        rw [hstep, recordedTimes_cons_false]
        exact ih recorded c r hch' hcr
          (fun t ht => le_trans (hadm t ht) (le_trans huc hcr)) hbound T
    · -- refused: the state is purged and nothing is recorded
      have hstep :
          rlProcess (recorded.filter (fun t => decide (v - 60000 < t)))
              ((c, r, ok) :: rest) =
            rlProcess (recorded.filter (fun t => decide (c - 60000 < t)))
              rest := by
        simp only [rlProcess, rlStep, hpurge, hlt, if_false]
        simp
      rw [hstep]
      exact ih recorded c r hch' hcr
        (fun t ht => le_trans (hadm t ht) (le_trans huc hcr)) hbound T

/-! ## Claims -/

/-- An all-at-once burst of 25 admission requests at instant 0, every
HTTP attempt succeeding. -/
def burstArrivals : List (ℤ × ℤ × Bool) := List.replicate 25 (0, 0, true)

/-- A burst of 19 admission requests at instant 0 whose HTTP attempts all
fail. -/
def burst19Fail : List (ℤ × ℤ × Bool) := List.replicate 19 (0, 0, false)

/-- Counterexample to C1.  `recordRequest()` runs only after a successful
`axios.post`, so an admitted request whose attempts all fail records
nothing and consumes no budget: 19 simultaneous arrivals under total
transport failure are *all* admitted — 19 > 18 admissions inside the
trailing 60-second window ending at instant 0 — and the admission at the
head happens with the purged window under 18 entries yet records no
timestamp, refuting both the claimed admission bound and the
"recorded at admission iff purged window < 18" clause. -/
theorem rate_limit_window_C1_counterexample :
    chronoFrom 0 burst19Fail = true ∧
    (((rlProcess [] burst19Fail).map (fun a => a.1)).filter
        (inWindow 0)).length = 19 ∧
    (rlStep 0 0 false []).1 = true ∧
    (purgeOld 0 ([] : List ℤ)).length < maxRequestsPerMinute ∧
    (rlStep 0 0 false []).2 = [] := by
  decide

/-- C1 amended.  The limiter purges every entry 60 s or older before each
admission check (and keeps every younger entry); it admits iff the purged
window has fewer than 18 entries, but a timestamp is recorded only when
the admitted request's HTTP attempt loop succeeds — an admitted request
whose attempts all fail leaves only the purge behind.  Consequently, for
every chronological sequence of request arrivals (bursts and failures
included), at most 18 *successful* requests have record times in any
trailing 60-second window; admissions themselves are unbounded under
persistent transport failure. -/
theorem rate_limit_window_C1 :
    (∀ now : ℤ, ∀ ts : List ℤ,
      (∀ t ∈ purgeOld now ts, now - 60000 < t) ∧
      (∀ t ∈ ts, now - 60000 < t → t ∈ purgeOld now ts)) ∧
    (∀ (c r : ℤ) (ok : Bool) (ts : List ℤ),
      ((rlStep c r ok ts).1 = true ↔
        (purgeOld c ts).length < maxRequestsPerMinute) ∧
      ((rlStep c r ok ts).1 = true → ok = true →
        (rlStep c r ok ts).2 = purgeOld c ts ++ [r]) ∧
      ((rlStep c r ok ts).1 = true → ok = false →
        (rlStep c r ok ts).2 = purgeOld c ts) ∧
      ((rlStep c r ok ts).1 = false → (rlStep c r ok ts).2 = purgeOld c ts)) ∧
    (∀ u : ℤ, ∀ arrivals : List (ℤ × ℤ × Bool),
      chronoFrom u arrivals = true →
      ∀ T : ℤ,
        ((recordedTimes (rlProcess [] arrivals)).filter
          (inWindow T)).length ≤ 18) := by
  refine ⟨?_, ?_, ?_⟩
  · intro now ts
    constructor
    · intro t ht
      have := List.of_mem_filter ht
      simpa using this
    · intro t ht hlt
      exact List.mem_filter.mpr ⟨ht, by simpa using hlt⟩
  · intro c r ok ts
    unfold rlStep
    by_cases h : (purgeOld c ts).length < maxRequestsPerMinute <;>
      cases ok <;> simp [h]
  · intro u arrivals hch T
    have := rlProcess_bound arrivals [] u u hch le_rfl (by simp) (by simp) T
    simpa using this

/-- Witness for the amended C1: a burst of 25 simultaneous successful
arrivals is chronological, and the window ending at instant 0 holds at
most 18 recorded requests. -/
theorem rate_limit_window_C1_witness :
    chronoFrom 0 burstArrivals = true ∧
      ((recordedTimes (rlProcess [] burstArrivals)).filter
        (inWindow 0)).length ≤ 18 :=
  ⟨by decide, rate_limit_window_C1.2.2 0 burstArrivals (by decide) 0⟩

/-! ## Concrete fixtures used by witnesses and counterexamples -/

/-- A configuration with the intelligence integration enabled. -/
def cfgEnabled : DetectorConfig :=
  { threatThresholds := { gasAnomalyThreshold := 120, flashLoanMinValue := 1000 },
    hiveIntelligence := { apiKey := some "key", enabled := true },
    mitigation := { enabled := true, autoFreeze := true, emergencyPause := false } }

/-- A low-value, low-gas, trivial-input transaction: fails the eligibility
gate and fires no heuristic. -/
def quietTx : RealTransaction :=
  { hash := "0xq", sender := "0xaaa", toAddr := some "0xbbb", value := 0,
    gasPrice := 0, input := "0x", timestamp := 0 }

/-- Transaction from `0xaaa` to `0xbbb`. -/
def txAB : RealTransaction :=
  { hash := "0xh1", sender := "0xaaa", toAddr := some "0xbbb", value := 0,
    gasPrice := 0, input := "0x", timestamp := 0 }

/-- Transaction in the reverse direction, from `0xbbb` to `0xaaa`. -/
def txBA : RealTransaction :=
  { hash := "0xh2", sender := "0xbbb", toAddr := some "0xaaa", value := 0,
    gasPrice := 0, input := "0x", timestamp := 0 }

/-! ## C2 — eligibility gate vs. rate limiter order -/

/-- Counterexample to C2.  The claim says a transaction failing the
eligibility gate "never consults the rate limiter"; in the code
`canMakeRequest()` runs first, so the gate-failing `quietTx` still consults
it — observably: the stale timestamp `-100000` is purged from
`requestTimestamps` by the admission check. -/
theorem enrichment_gate_C2_counterexample :
    eligibleForEnrichment cfgEnabled quietTx = false ∧
    (analyzePre cfgEnabled [-100000] 0 quietTx).consultedRateLimiter = true ∧
    (analyzePre cfgEnabled [-100000] 0 quietTx).timestamps = [] ∧
    (analyzePre cfgEnabled [-100000] 0 quietTx).outcome = .ineligible := by
  decide

/-- C2 amended: with the integration enabled and an API key configured,
`analyzeTransaction` consults the rate limiter *before* the eligibility
gate; a transaction failing the gate still triggers the limiter's purge but
skips enrichment — the outcome is never `proceed`, the post-call
`requestTimestamps` is exactly the purged window (nothing recorded), and
when the purged window is under the ceiling the call resolves as
`ineligible`. -/
theorem enrichment_gate_C2 (cfg : DetectorConfig) (ts : List ℤ) (now : ℤ)
    (tx : RealTransaction)
    (hen : cfg.hiveIntelligence.enabled = true)
    (hkey : cfg.hiveIntelligence.apiKey.isSome = true)
    (hgate : eligibleForEnrichment cfg tx = false) :
    (analyzePre cfg ts now tx).consultedRateLimiter = true ∧
    (analyzePre cfg ts now tx).outcome ≠ .proceed ∧
    (analyzePre cfg ts now tx).timestamps = purgeOld now ts ∧
    ((purgeOld now ts).length < maxRequestsPerMinute →
      (analyzePre cfg ts now tx).outcome = .ineligible) := by
  have hguard :
      ¬(¬cfg.hiveIntelligence.enabled = true ∨
        cfg.hiveIntelligence.apiKey.isNone = true) := by
    rintro (h | h)
    · exact h hen
    · rw [Option.isNone_iff_eq_none] at h
      rw [h] at hkey
      simp at hkey
  by_cases hrl : (purgeOld now ts).length < maxRequestsPerMinute
  · have : analyzePre cfg ts now tx = ⟨.ineligible, purgeOld now ts, true⟩ := by
      unfold analyzePre
      rw [if_neg hguard, if_neg (by simpa using hrl), if_pos (by simp [hgate])]
    rw [this]
    exact ⟨rfl, by simp, rfl, fun _ => rfl⟩
  · have : analyzePre cfg ts now tx = ⟨.rateLimited, purgeOld now ts, true⟩ := by
      unfold analyzePre
      rw [if_neg hguard, if_pos (by simpa using hrl)]
    rw [this]
    exact ⟨rfl, by simp, rfl, fun h => absurd h hrl⟩

/-- Witness for the amended C2 at the concrete fixture. -/
theorem enrichment_gate_C2_witness :
    cfgEnabled.hiveIntelligence.enabled = true ∧
    cfgEnabled.hiveIntelligence.apiKey.isSome = true ∧
    eligibleForEnrichment cfgEnabled quietTx = false ∧
    (analyzePre cfgEnabled [-100000] 0 quietTx).consultedRateLimiter = true ∧
    (analyzePre cfgEnabled [-100000] 0 quietTx).timestamps =
      purgeOld 0 [-100000] :=
  ⟨rfl, rfl, by decide,
    (enrichment_gate_C2 cfgEnabled [-100000] 0 quietTx rfl rfl (by decide)).1,
    (enrichment_gate_C2 cfgEnabled [-100000] 0 quietTx rfl rfl (by decide)).2.2.1⟩

/-! ## C3 — gas-anomaly alert -/

/-- C3.  For a positive configured threshold: a transaction with gas price
above the threshold yields exactly one gas-anomaly alert, with severity
`high` iff the price exceeds 2× the threshold (else `medium`) and
confidence `min 0.9 (price/threshold × 0.3)`; at or below the threshold no
alert is produced. -/
theorem gas_anomaly_C3 (cfg : DetectorConfig) (tx : RealTransaction)
    (_hth : 0 < cfg.threatThresholds.gasAnomalyThreshold) :
    (cfg.threatThresholds.gasAnomalyThreshold < tx.gasPrice →
      detectGasAnomalies cfg tx =
        [{ ttype := .suspicious_pattern,
           severity :=
             if 2 * cfg.threatThresholds.gasAnomalyThreshold < tx.gasPrice
             then .high else .medium,
           contractAddress := tx.toAddr.getD "",
           transactionHash := tx.hash,
           timestamp := tx.timestamp,
           confidence :=
             min (9/10)
               (tx.gasPrice / cfg.threatThresholds.gasAnomalyThreshold * (3/10)),
           mitigated := false }]) ∧
    (¬cfg.threatThresholds.gasAnomalyThreshold < tx.gasPrice →
      detectGasAnomalies cfg tx = []) := by
  constructor
  · intro hg
    simp only [detectGasAnomalies, if_pos hg]
    rw [mul_comm cfg.threatThresholds.gasAnomalyThreshold 2]
  · intro hg
    simp only [detectGasAnomalies, if_neg hg]

/-- Transaction with gas price 250, above the fixture threshold 120 and
above 2×120. -/
def hotGasTx : RealTransaction :=
  { hash := "0xg", sender := "0xaaa", toAddr := some "0xbbb", value := 0,
    gasPrice := 250, input := "0x", timestamp := 0 }

/-- Witness for C3 at the concrete fixture: one `high` alert with
confidence `min 0.9 (250/120 × 0.3) = 0.625`. -/
theorem gas_anomaly_C3_witness :
    0 < cfgEnabled.threatThresholds.gasAnomalyThreshold ∧
    detectGasAnomalies cfgEnabled hotGasTx =
      [{ ttype := .suspicious_pattern,
         severity :=
           if 2 * cfgEnabled.threatThresholds.gasAnomalyThreshold <
               hotGasTx.gasPrice then .high else .medium,
         contractAddress := hotGasTx.toAddr.getD "",
         transactionHash := hotGasTx.hash,
         timestamp := hotGasTx.timestamp,
         confidence :=
           min (9/10)
             (hotGasTx.gasPrice /
               cfgEnabled.threatThresholds.gasAnomalyThreshold * (3/10)),
         mitigated := false }] :=
  ⟨by decide,
    (gas_anomaly_C3 cfgEnabled hotGasTx (by decide)).1 (by decide)⟩

/-! ## C5 — window key symmetry -/

/-- Counterexample to C5.  The window key is the *ordered* string
`from + '-' + to`: `0xaaa→0xbbb` and `0xbbb→0xaaa` produce different keys
and are appended to two different windows, not the same one. -/
theorem window_key_C5_counterexample :
    (pairKey txAB == pairKey txBA) = false ∧
    (trackTransaction (trackTransaction initialDetectorState txAB)
        txBA).recentTransactions (pairKey txAB) = [txAB] ∧
    (trackTransaction (trackTransaction initialDetectorState txAB)
        txBA).recentTransactions (pairKey txBA) = [txBA] := by
  decide

/-- C5 amended: the sliding window is keyed by the ordered concatenation
`from + '-' + to` (with an absent recipient stringified to `"undefined"`),
not by the sorted pair; tracking a transaction leaves every window with a
different ordered key — in particular the reversed pair's window when the
two ordered keys differ — unchanged. -/
theorem window_key_C5 (st : LocalDetectorState) (tx1 tx2 : RealTransaction)
    (h : pairKey tx1 ≠ pairKey tx2) :
    (trackTransaction st tx2).recentTransactions (pairKey tx1) =
      st.recentTransactions (pairKey tx1) ∧
    pairKey tx2 = tx2.sender ++ "-" ++
      (match tx2.toAddr with | some a => a | none => "undefined") := by
  refine ⟨?_, rfl⟩
  simp only [trackTransaction]
  rw [if_neg h]

/-- Witness for the amended C5 at the concrete reversed pair. -/
theorem window_key_C5_witness :
    (pairKey txAB == pairKey txBA) = false ∧
    (trackTransaction initialDetectorState txBA).recentTransactions
        (pairKey txAB) =
      initialDetectorState.recentTransactions (pairKey txAB) :=
  ⟨by decide, (window_key_C5 initialDetectorState txAB txBA (by decide)).1⟩

/-! ## C9 — suspicious contract creation -/

/-- C9.  The suspicious-contract-creation detector fires iff the recipient
is absent and the input payload exceeds 1000 bytes, producing exactly one
`low` alert with confidence 0.4. -/
theorem suspicious_creation_C9 (tx : RealTransaction) :
    ((tx.toAddr = none ∧ 1000 < tx.input.length) →
      detectSuspiciousPatterns tx =
        [{ ttype := .suspicious_pattern, severity := .low,
           contractAddress := "", transactionHash := tx.hash,
           timestamp := tx.timestamp, confidence := 2/5,
           mitigated := false }]) ∧
    (¬(tx.toAddr = none ∧ 1000 < tx.input.length) →
      detectSuspiciousPatterns tx = []) := by
  constructor
  · rintro ⟨h1, h2⟩
    simp only [detectSuspiciousPatterns]
    rw [if_pos ⟨by simp [h1], h2⟩]
  · intro h
    simp only [detectSuspiciousPatterns]
    rw [if_neg (by simpa [Option.isNone_iff_eq_none] using h)]

/-- A contract-creation transaction carrying a 1500-byte input payload. -/
def creationTx : RealTransaction :=
  { hash := "0xc", sender := "0xaaa", toAddr := none, value := 0,
    gasPrice := 0, input := String.mk (List.replicate 1500 'a'),
    timestamp := 0 }

set_option maxRecDepth 40000 in
/-- Witness for C9: the 1500-byte contract creation produces exactly the
one `low`/0.4 alert. -/
theorem suspicious_creation_C9_witness :
    (creationTx.toAddr = none ∧ 1000 < creationTx.input.length) ∧
    detectSuspiciousPatterns creationTx =
      [{ ttype := .suspicious_pattern, severity := .low,
         contractAddress := "", transactionHash := creationTx.hash,
         timestamp := creationTx.timestamp, confidence := 2/5,
         mitigated := false }] :=
  ⟨⟨rfl, by decide⟩,
    (suspicious_creation_C9 creationTx).1 ⟨rfl, by decide⟩⟩

/-! ## C6 — window cap and FIFO eviction -/

/-- One `trackTransaction` step keeps every window at ≤ 10 entries. -/
lemma track_window_le (st : LocalDetectorState) (tx : RealTransaction)
    (h : ∀ k, (st.recentTransactions k).length ≤ 10) :
    ∀ k, ((trackTransaction st tx).recentTransactions k).length ≤ 10 := by
  intro k
  simp only [trackTransaction]
  by_cases hk : k = pairKey tx
  · rw [if_pos hk]
    by_cases hlen : 10 < (st.recentTransactions (pairKey tx) ++ [tx]).length
    · rw [if_pos hlen]
      have h10 := h (pairKey tx)
      simp only [List.length_tail, List.length_append, List.length_singleton]
      omega
    · rw [if_neg hlen]
      omega
  · rw [if_neg hk]
    exact h k

/-- The window bound is an invariant of processing whole sequences. -/
lemma processAll_window_le (cfg : DetectorConfig) :
    ∀ (txs : List RealTransaction) (st : LocalDetectorState),
      (∀ k, (st.recentTransactions k).length ≤ 10) →
      ∀ k, ((processAll cfg st txs).recentTransactions k).length ≤ 10 := by
  intro txs
  induction txs with
  | nil => intro st h k; exact h k
  | cons tx rest ih =>
    intro st h k
    exact ih (trackTransaction st tx) (track_window_le st tx h) k

/-- C6.  After any transaction sequence from the fresh state every per-pair
window holds at most 10 entries; a step on a window of fewer than 10
entries appends at the back, and a step on a full window of 10 drops
exactly the oldest entry and appends at the back (strict FIFO). -/
theorem sliding_window_C6 (cfg : DetectorConfig) :
    (∀ (txs : List RealTransaction) (k : String),
      ((processAll cfg initialDetectorState txs).recentTransactions k).length
        ≤ 10) ∧
    (∀ (st : LocalDetectorState) (tx : RealTransaction),
      ((st.recentTransactions (pairKey tx)).length ≤ 9 →
        (trackTransaction st tx).recentTransactions (pairKey tx) =
          st.recentTransactions (pairKey tx) ++ [tx]) ∧
      ((st.recentTransactions (pairKey tx)).length = 10 →
        (trackTransaction st tx).recentTransactions (pairKey tx) =
          (st.recentTransactions (pairKey tx)).tail ++ [tx])) := by
  constructor
  · intro txs k
    exact processAll_window_le cfg txs initialDetectorState
      (fun _ => by simp [initialDetectorState]) k
  · intro st tx
    constructor
    · intro h9
      simp only [trackTransaction]
      rw [if_pos trivial, if_neg (by
        simp only [List.length_append, List.length_cons, List.length_nil]
        omega)]
    · intro h10
      simp only [trackTransaction]
      rw [if_pos trivial, if_pos (by
        simp only [List.length_append, List.length_cons, List.length_nil]
        omega)]
      cases hw : st.recentTransactions (pairKey tx) with
      | nil => rw [hw] at h10; simp at h10
      | cons x xs => simp

/-- Ten copies of `txAB`: fills one window exactly to its cap. -/
def tenTxs : List RealTransaction := List.replicate 10 txAB

/-- The state after processing `tenTxs`. -/
def fullState : LocalDetectorState :=
  processAll cfgEnabled initialDetectorState tenTxs

/-- Witness for C6: the full window has exactly 10 entries, stays ≤ 10,
and the next append evicts the oldest entry. -/
theorem sliding_window_C6_witness :
    ((processAll cfgEnabled initialDetectorState tenTxs).recentTransactions
        (pairKey txAB)).length ≤ 10 ∧
    (fullState.recentTransactions (pairKey txAB)).length = 10 ∧
    (trackTransaction fullState txAB).recentTransactions (pairKey txAB) =
      (fullState.recentTransactions (pairKey txAB)).tail ++ [txAB] :=
  ⟨(sliding_window_C6 cfgEnabled).1 tenTxs (pairKey txAB), by decide,
    ((sliding_window_C6 cfgEnabled).2 fullState txAB).2 (by decide)⟩

/-! ## C7 — mitigation gate -/

/-- C7.  `handleThreat` invokes mitigation iff mitigation is enabled, the
severity is `critical` and the confidence exceeds 0.8; never for `high`;
and on invocation the final alert carries `mitigated = true` and is
re-dispatched (it is the last alert sent to the channels). -/
theorem mitigation_gate_C7 (cfg : DetectorConfig) (t : ThreatAlert) :
    ((handleThreat cfg t).mitigationInvoked = true ↔
      (cfg.mitigation.enabled = true ∧ t.severity = .critical ∧
        4/5 < t.confidence)) ∧
    (t.severity = .high → (handleThreat cfg t).mitigationInvoked = false) ∧
    ((handleThreat cfg t).mitigationInvoked = true →
      (handleThreat cfg t).finalAlert.mitigated = true ∧
      (handleThreat cfg t).dispatched.getLast? =
        some ((handleThreat cfg t).finalAlert)) := by
  by_cases hm : cfg.mitigation.enabled = true ∧ t.severity = Severity.critical ∧
      (4 : ℚ)/5 < t.confidence
  · have hstep : handleThreat cfg t =
        ⟨(if t.severity = .medium ∨ t.severity = .high ∨
            t.severity = .critical then [t] else []) ++
          [executeMitigation t], true, executeMitigation t⟩ := by
      simp only [handleThreat]
      rw [if_pos hm]
    rw [hstep]
    refine ⟨by simpa using hm, ?_, ?_⟩
    · intro hh
      rw [hh] at hm
      exact absurd hm.2.1 (by decide)
    · intro _
      exact ⟨rfl, List.getLast?_concat _⟩
  · have hstep : handleThreat cfg t =
        ⟨if t.severity = .medium ∨ t.severity = .high ∨
            t.severity = .critical then [t] else [], false, t⟩ := by
      simp only [handleThreat]
      rw [if_neg hm]
    rw [hstep]
    exact ⟨iff_of_false (by simp) hm, fun _ => rfl,
      fun h => absurd h (by simp)⟩

/-- A critical rug-pull alert with confidence 0.9. -/
def criticalAlert : ThreatAlert :=
  { ttype := .rug_pull, severity := .critical, contractAddress := "0xc",
    transactionHash := "0xt", timestamp := 0, confidence := 9/10,
    mitigated := false }

/-- Witness for C7: on an enabled config and a critical 0.9-confidence
alert, mitigation is invoked, the final alert is marked mitigated and
re-dispatched last. -/
theorem mitigation_gate_C7_witness :
    (handleThreat cfgEnabled criticalAlert).mitigationInvoked = true ∧
    (handleThreat cfgEnabled criticalAlert).finalAlert.mitigated = true ∧
    (handleThreat cfgEnabled criticalAlert).dispatched.getLast? =
      some ((handleThreat cfgEnabled criticalAlert).finalAlert) := by
  have H := mitigation_gate_C7 cfgEnabled criticalAlert
  have hinv : (handleThreat cfgEnabled criticalAlert).mitigationInvoked = true :=
    H.1.mpr ⟨rfl, rfl, by norm_num [criticalAlert]⟩
  exact ⟨hinv, (H.2.2 hinv).1, (H.2.2 hinv).2⟩

/-! ## C4 — MEV-pattern detector -/

/-- A transaction between the fixture pair with an 11-byte-plus input and a
chosen gas price. -/
def mevTx (h : String) (g : ℚ) : RealTransaction :=
  { hash := h, sender := "0xaaa", toAddr := some "0xbbb", value := 0,
    gasPrice := g, input := "0x1122334455", timestamp := 0 }

/-- State holding three prior transactions of gas price 25 between the
fixture pair. -/
def mevPriorState : LocalDetectorState :=
  processAll cfgEnabled initialDetectorState
    [mevTx "0xt1" 25, mevTx "0xt2" 25, mevTx "0xt3" 25]

/-- Counterexample to C4.  The claim's four conditions all hold for a
fourth transaction of gas price 80 (gas above half the 120 threshold,
12-byte input, 3 > 2 prior entries, and 80 > 3 × 25 = three times the
average gas of the *prior* entries), yet the code fires no MEV alert: the
window it averages over already contains the current transaction, giving
3 × (75+80)/4 = 116.25 > 80. -/
theorem mev_window_C4_counterexample :
    cfgEnabled.threatThresholds.gasAnomalyThreshold * (1/2) <
      (mevTx "0xt4" 80).gasPrice ∧
    10 < (mevTx "0xt4" 80).input.length ∧
    (mevPriorState.recentTransactions (pairKey (mevTx "0xt4" 80))).length = 3 ∧
    ((mevPriorState.recentTransactions (pairKey (mevTx "0xt4" 80))).map
        (fun rtx => rtx.gasPrice)).sum /
      ((mevPriorState.recentTransactions
          (pairKey (mevTx "0xt4" 80))).length : ℚ) * 3 <
      (mevTx "0xt4" 80).gasPrice ∧
    (detectThreats cfgEnabled mevPriorState (mevTx "0xt4" 80)).2.filter
      (fun a => a.ttype == ThreatType.mev_attack) = [] := by
  have hkey : pairKey (mevTx "0xt4" 80) = "0xaaa-0xbbb" := by decide
  have hwin : mevPriorState.recentTransactions "0xaaa-0xbbb" =
      [mevTx "0xt1" 25, mevTx "0xt2" 25, mevTx "0xt3" 25] := by decide
  have htrack : (trackTransaction mevPriorState
        (mevTx "0xt4" 80)).recentTransactions "0xaaa-0xbbb" =
      [mevTx "0xt1" 25, mevTx "0xt2" 25, mevTx "0xt3" 25,
        mevTx "0xt4" 80] := by decide
  refine ⟨by norm_num [cfgEnabled, mevTx], by decide, ?_, ?_, ?_⟩
  · rw [hkey, hwin]
    rfl
  · rw [hkey, hwin]
    norm_num [mevTx, List.map_cons, List.map_nil, List.sum_cons,
      List.sum_nil, List.length_cons, List.length_nil]
  · have hA : detectGasAnomalies cfgEnabled (mevTx "0xt4" 80) = [] := by
      decide
    have hB : detectLargeValueTransfers cfgEnabled (mevTx "0xt4" 80) = [] := by
      decide
    have hD : detectSuspiciousPatterns (mevTx "0xt4" 80) = [] := by decide
    have hE : detectContractBehavior
        (trackTransaction mevPriorState (mevTx "0xt4" 80))
        (mevTx "0xt4" 80) = [] := by decide
    have hC : detectMEVActivity cfgEnabled
        (trackTransaction mevPriorState (mevTx "0xt4" 80))
        (mevTx "0xt4" 80) = [] := by
      simp only [detectMEVActivity]
      rw [if_pos ⟨by norm_num [cfgEnabled, mevTx], by decide⟩, hkey, htrack,
        if_pos (by decide), if_neg (by
          norm_num [mevTx, List.map_cons, List.map_nil, List.sum_cons,
            List.sum_nil, List.length_cons, List.length_nil])]
    simp only [detectThreats, List.filter_append, hA, hB, hC, hD, hE,
      List.filter_nil, List.append_nil, List.nil_append]

/-- C4 amended: the MEV detector consults the *post-append* window (its
last entry is the current transaction, so "more than 2 entries" means at
least 2 prior ones), and fires — with exactly one `medium`/0.7 `mev_attack`
alert, the only MEV alert of the whole `detectThreats` call — iff the gas
price exceeds half the gas-anomaly threshold, the input payload exceeds
10 bytes, that post-append window has more than 2 entries, and the gas
price exceeds 3 × the average gas price of the post-append window
(current transaction included). -/
theorem mev_detector_C4 (cfg : DetectorConfig) (st : LocalDetectorState)
    (tx : RealTransaction) :
    ((trackTransaction st tx).recentTransactions (pairKey tx)).getLast? =
      some tx ∧
    (detectThreats cfg st tx).2.filter
        (fun a => a.ttype == ThreatType.mev_attack) =
      detectMEVActivity cfg (trackTransaction st tx) tx ∧
    ((detectMEVActivity cfg (trackTransaction st tx) tx).length = 1 ↔
      (cfg.threatThresholds.gasAnomalyThreshold * (1/2) < tx.gasPrice ∧
        10 < tx.input.length) ∧
      2 < ((trackTransaction st tx).recentTransactions (pairKey tx)).length ∧
      (((trackTransaction st tx).recentTransactions (pairKey tx)).map
          (fun rtx => rtx.gasPrice)).sum /
        (((trackTransaction st tx).recentTransactions
            (pairKey tx)).length : ℚ) * 3 < tx.gasPrice) ∧
    (detectMEVActivity cfg (trackTransaction st tx) tx).all
      (fun a => a.severity == Severity.medium &&
        a.confidence == (7/10 : ℚ) && a.ttype == ThreatType.mev_attack) =
      true := by
  refine ⟨?_, ?_, ?_, ?_⟩
  · -- the post-append window ends with the current transaction
    simp only [trackTransaction]
    rw [if_pos trivial]
    by_cases hl : 10 < (st.recentTransactions (pairKey tx) ++ [tx]).length
    · rw [if_pos hl]
      cases hw : st.recentTransactions (pairKey tx) with
      | nil => rw [hw] at hl; simp at hl
      | cons x xs => simp [List.getLast?_concat]
    · rw [if_neg hl]
      exact List.getLast?_concat _
  · -- only `detectMEVActivity` produces `mev_attack` alerts
    have hA : (detectGasAnomalies cfg tx).filter
        (fun a => a.ttype == ThreatType.mev_attack) = [] := by
      simp only [detectGasAnomalies]
      split <;> rfl
    have hB : (detectLargeValueTransfers cfg tx).filter
        (fun a => a.ttype == ThreatType.mev_attack) = [] := by
      simp only [detectLargeValueTransfers]
      split <;> rfl
    have hD : (detectSuspiciousPatterns tx).filter
        (fun a => a.ttype == ThreatType.mev_attack) = [] := by
      simp only [detectSuspiciousPatterns]
      split <;> rfl
    have hE : (detectContractBehavior (trackTransaction st tx) tx).filter
        (fun a => a.ttype == ThreatType.mev_attack) = [] := by
      simp only [detectContractBehavior]
      split
      · split <;> rfl
      · rfl
    have hC : (detectMEVActivity cfg (trackTransaction st tx) tx).filter
        (fun a => a.ttype == ThreatType.mev_attack) =
        detectMEVActivity cfg (trackTransaction st tx) tx := by
      simp only [detectMEVActivity]
      split_ifs <;> rfl
    simp only [detectThreats, List.filter_append, hA, hB, hC, hD, hE,
      List.append_nil, List.nil_append]
  · -- firing condition over the post-append window
    simp only [detectMEVActivity]
    split_ifs with h1 h2 h3
    · simp only [List.length_cons, List.length_nil]
      constructor
      · intro _
        exact ⟨h1, h2, h3⟩
      · intro _
        trivial
    · simp only [List.length_nil]
      constructor
      · intro h
        exact absurd h (by norm_num)
      · rintro ⟨_, _, hc⟩
        exact absurd hc h3
    · simp only [List.length_nil]
      constructor
      · intro h
        exact absurd h (by norm_num)
      · rintro ⟨_, hb, _⟩
        exact absurd hb h2
    · simp only [List.length_nil]
      constructor
      · intro h
        exact absurd h (by norm_num)
      · rintro ⟨ha, _, _⟩
        exact absurd ha h1
  · -- the alert's fixed fields
    simp only [detectMEVActivity]
    split_ifs <;> simp

/-- State holding three prior transactions of gas price 10 between the
fixture pair: low enough that a gas price of 200 fires the detector. -/
def mevLowState : LocalDetectorState :=
  processAll cfgEnabled initialDetectorState
    [mevTx "0xs1" 10, mevTx "0xs2" 10, mevTx "0xs3" 10]

/-- Witness for the amended C4: on the low-gas history a 200-gas
transaction yields exactly one MEV alert, and the consulted window ends
with the current transaction. -/
theorem mev_detector_C4_witness :
    ((trackTransaction mevLowState (mevTx "0xs4" 200)).recentTransactions
        (pairKey (mevTx "0xs4" 200))).getLast? = some (mevTx "0xs4" 200) ∧
    (detectMEVActivity cfgEnabled
        (trackTransaction mevLowState (mevTx "0xs4" 200))
        (mevTx "0xs4" 200)).length = 1 :=
  ⟨(mev_detector_C4 cfgEnabled mevLowState (mevTx "0xs4" 200)).1,
    (mev_detector_C4 cfgEnabled mevLowState
        (mevTx "0xs4" 200)).2.2.1.mpr (by
      have hkeyS : pairKey (mevTx "0xs4" 200) = "0xaaa-0xbbb" := by decide
      have htrackS : (trackTransaction mevLowState
            (mevTx "0xs4" 200)).recentTransactions "0xaaa-0xbbb" =
          [mevTx "0xs1" 10, mevTx "0xs2" 10, mevTx "0xs3" 10,
            mevTx "0xs4" 200] := by decide
      refine ⟨⟨by norm_num [cfgEnabled, mevTx], by decide⟩, ?_, ?_⟩
      · rw [hkeyS, htrackS]
        decide
      · rw [hkeyS, htrackS]
        norm_num [mevTx, List.map_cons, List.map_nil, List.sum_cons,
          List.sum_nil, List.length_cons, List.length_nil])⟩

/-! ## C8 — retry, backoff and failure containment -/

/-- C8.  The attempt loop runs at most 2 attempts; when a second attempt
runs, exactly one wait of `retryDelay × 1` (1000 ms after attempt 1) was
inserted; failures on both attempts yield `none`; a transport success
immediately yields the parse of its body (no retry on a malformed body);
and a falsy body — absent, missing `response`, or empty `response` —
parses to `none`.  The embedding is total: no enrichment outcome is an
exception. -/
theorem retry_backoff_C8 (oracle : ℕ → TransportOutcome) :
    (analyzeAttempts oracle).attemptsMade ≤ 2 ∧
    ((analyzeAttempts oracle).attemptsMade = 2 →
      (analyzeAttempts oracle).waits = [retryDelay * 1]) ∧
    ((analyzeAttempts oracle).attemptsMade ≤ 1 →
      (analyzeAttempts oracle).waits = []) ∧
    (∀ s1 s2 : Option ℕ,
      oracle 1 = .failure s1 → oracle 2 = .failure s2 →
      (analyzeAttempts oracle).result = none) ∧
    (∀ d : Option SearchData, oracle 1 = .success d →
      (analyzeAttempts oracle).result = parseSearchResponse d) ∧
    (parseSearchResponse none = none ∧
      ∀ srcs : List String,
        parseSearchResponse (some ⟨none, srcs⟩) = none ∧
        parseSearchResponse (some ⟨some "", srcs⟩) = none) := by
  have hparse : parseSearchResponse none = none ∧
      ∀ srcs : List String,
        parseSearchResponse (some ⟨none, srcs⟩) = none ∧
        parseSearchResponse (some ⟨some "", srcs⟩) = none :=
    ⟨rfl, fun _ => ⟨rfl, by simp [parseSearchResponse]⟩⟩
  cases h1 : oracle 1 with
  | success d1 =>
    have e : analyzeAttempts oracle = ⟨parseSearchResponse d1, 1, []⟩ := by
      simp [analyzeAttempts, retryCount, attemptLoop, h1]
    rw [e]
    refine ⟨by norm_num, by simp, fun _ => rfl, ?_, ?_, hparse⟩
    · intro s1 s2 hf _
      exact absurd hf (by simp)
    · intro d hd
      cases hd
      rfl
  | failure s1 =>
    cases h2 : oracle 2 with
    | success d2 =>
      have e : analyzeAttempts oracle =
          ⟨parseSearchResponse d2, 2, [retryDelay * 1]⟩ := by
        simp [analyzeAttempts, retryCount, attemptLoop, h1, h2]
      rw [e]
      refine ⟨by norm_num, fun _ => rfl, by norm_num, ?_, ?_, hparse⟩
      · intro t1 t2 _ hf
        exact absurd hf (by simp)
      · intro d hd
        exact absurd hd (by simp)
    | failure s2 =>
      have e : analyzeAttempts oracle = ⟨none, 2, [retryDelay * 1]⟩ := by
        simp [analyzeAttempts, retryCount, attemptLoop, h1, h2]
      rw [e]
      refine ⟨by norm_num, fun _ => rfl, by norm_num, fun _ _ _ _ => rfl,
        ?_, hparse⟩
      intro d hd
      exact absurd hd (by simp)

/-- An oracle whose transport fails on every attempt. -/
def failOracle : ℕ → TransportOutcome := fun _ => .failure none

/-- Witness for C8: under total transport failure both attempts run, one
1000 ms wait is inserted, and the caller gets `none`. -/
theorem retry_backoff_C8_witness :
    (analyzeAttempts failOracle).attemptsMade ≤ 2 ∧
    (analyzeAttempts failOracle).waits = [retryDelay * 1] ∧
    (analyzeAttempts failOracle).result = none ∧
    parseSearchResponse (some ⟨some "", []⟩) = none :=
  ⟨(retry_backoff_C8 failOracle).1,
    (retry_backoff_C8 failOracle).2.1 (by decide),
    (retry_backoff_C8 failOracle).2.2.2.1 none none rfl rfl,
    ((retry_backoff_C8 failOracle).2.2.2.2.2.2 []).2⟩

/-! ## C10 — the enrichment fallback alert is always `medium` -/

/-- The overall-risk extractor's entire range: {0.8, 0.5, 0.2, 0.3}. -/
lemma extractOverallRisk_values (text : String) :
    extractOverallRisk text = 4/5 ∨ extractOverallRisk text = 1/2 ∨
      extractOverallRisk text = 1/5 ∨ extractOverallRisk text = 3/10 := by
  unfold extractOverallRisk
  split_ifs <;> simp

/-- C10.  The overall-risk extractor only returns 0.8, 0.5, 0.2 or 0.3, so
under the fallback's `> 0.7` gate the overall risk is exactly 0.8, the
`> 0.8` branch is unreachable, and every `suspicious_pattern` alert that
`processHiveThreats` emits from a parsed response has severity `medium`. -/
theorem fallback_severity_C10 :
    (∀ text : String,
      extractOverallRisk text = 4/5 ∨ extractOverallRisk text = 1/2 ∨
        extractOverallRisk text = 1/5 ∨ extractOverallRisk text = 3/10) ∧
    (∀ (sd : Option SearchData) (a : HiveAnalysis) (tx : RealTransaction),
      parseSearchResponse sd = some a →
      ((processHiveThreats tx a).filter
          (fun al => al.ttype == ThreatType.suspicious_pattern)).all
        (fun al => al.severity == Severity.medium) = true) := by
  refine ⟨extractOverallRisk_values, ?_⟩
  intro sd a tx hpa
  have hrisk : a.overallRisk = 4/5 ∨ a.overallRisk = 1/2 ∨
      a.overallRisk = 1/5 ∨ a.overallRisk = 3/10 := by
    rcases sd with _ | d
    · exact absurd hpa (by simp [parseSearchResponse])
    · rcases hd : d.response with _ | raw
      · simp [parseSearchResponse, hd] at hpa
      · by_cases hraw : raw = ""
        · simp [parseSearchResponse, hd, hraw] at hpa
        · simp only [parseSearchResponse, hd, if_neg hraw,
            Option.some.injEq] at hpa
          subst hpa
          simpa using extractOverallRisk_values (toLowerStr raw)
  have hcatfil : (processHiveCategoryThreats tx a).filter
      (fun al => al.ttype == ThreatType.suspicious_pattern) = [] := by
    unfold processHiveCategoryThreats
    cases hr : a.rugPull <;> cases hf : a.flashLoan <;> cases hm2 : a.mev <;>
      dsimp only <;> first | (split_ifs <;> rfl) | rfl
  simp only [processHiveThreats]
  by_cases hcond : 7/10 < a.overallRisk ∧
      (processHiveCategoryThreats tx a).length = 0
  · rw [if_pos hcond]
    have hnil : processHiveCategoryThreats tx a = [] :=
      List.length_eq_zero.mp hcond.2
    rw [hnil, List.nil_append]
    have h8 : a.overallRisk = 4/5 := by
      rcases hrisk with h | h | h | h
      · exact h
      · rw [h] at hcond
        norm_num at hcond
      · rw [h] at hcond
        norm_num at hcond
      · rw [h] at hcond
        norm_num at hcond
    rw [h8, if_neg (by norm_num)]
    rfl
  · rw [if_neg hcond, hcatfil]
    rfl

/-- An enrichment response reading "high risk": no category keyword
matches, so only the generic fallback can fire. -/
def highRiskSearch : Option SearchData := some ⟨some "high risk", []⟩

/-- What `parseSearchResponse` yields on `highRiskSearch`: overall risk
0.8, default confidence 0.6, no category present. -/
def highRiskAnalysis : HiveAnalysis :=
  { dataSources := [], rawResponse := "high risk", overallRisk := 4/5,
    confidence := 3/5, rugPull := none, flashLoan := none, mev := none }

/-- Witness for C10 at the "high risk" response: the parse is as stated
and the emitted fallback alert is `medium`. -/
theorem fallback_severity_C10_witness :
    parseSearchResponse highRiskSearch = some highRiskAnalysis ∧
    ((processHiveThreats txAB highRiskAnalysis).filter
        (fun al => al.ttype == ThreatType.suspicious_pattern)).all
      (fun al => al.severity == Severity.medium) = true := by
  have hp : parseSearchResponse highRiskSearch = some highRiskAnalysis := rfl
  exact ⟨hp, fallback_severity_C10.2 highRiskSearch highRiskAnalysis txAB hp⟩

end ChainSentinel
